import Mathlib

/-!
Shallow embedding of the gordp Qt GUI (kdsmith18542/gordp) for checking its
natural-language specification.  The embedded code lives in
`src/qt-gui/src/input/input_handler.cpp`, `src/qt-gui/src/display/rdp_display.cpp`
and `src/qt-gui/src/utils/gordp_bridge.cpp`.

Modelling conventions:
* C++ `int` is modelled as `Int` (no claim here exercises 32-bit overflow);
  `double`/`qreal` is modelled as `ℚ` (the only claims touching real
  arithmetic are purity/clamping claims, which are insensitive to rounding);
  `static_cast<int>(double)` truncates toward zero, modelled by `ratTrunc`.
* Qt container/value classes are modelled structurally: `QPoint`/`QSize`/`QRect`
  as record types, `QSet<int>` as `Finset Int`, `Qt::MouseButtons` (a bitmask of
  one-hot flags) as a `Finset Int` of the set flags, JSON values as the `Json`
  inductive below (field order is insertion order; the claims never depend on
  QJsonObject's alphabetical storage order).
* A Qt object's data members become a state record; each member function
  becomes a function from the state (and the event/arguments) to the new state
  together with the list of emitted signals and, for the bridge, the list of
  external actions it performs (HTTP posts, WebSocket sends, process control).
  External results the code consumes (executable lookup, `waitForStarted`,
  `waitForFinished(5000)`, the HTTP reply, the JSON parser outcome, and
  `QImage::loadFromData`) are passed in as explicit parameters.
-/

/-- `QPoint`: a pair of `int` coordinates. -/
structure Point where
  x : Int
  y : Int
deriving DecidableEq, Repr

/-- `QSize`: width and height. -/
structure Size where
  width : Int
  height : Int
deriving DecidableEq, Repr

/-- `QSize::isEmpty()`: true iff width or height is ≤ 0. -/
def Size.isEmpty (s : Size) : Bool :=
  s.width ≤ 0 || s.height ≤ 0

/-- `QRect` with x, y, width, height. -/
structure Rect where
  x : Int
  y : Int
  width : Int
  height : Int
deriving DecidableEq, Repr

/-- `QRect::setX`: moves the left edge, keeping the right edge fixed. -/
def Rect.setX (r : Rect) (nx : Int) : Rect :=
  { r with x := nx, width := r.width + r.x - nx }

/-- `QRect::setY`: moves the top edge, keeping the bottom edge fixed. -/
def Rect.setY (r : Rect) (ny : Int) : Rect :=
  { r with y := ny, height := r.height + r.y - ny }

/-- `QRect::setWidth`. -/
def Rect.setWidth (r : Rect) (w : Int) : Rect :=
  { r with width := w }

/-- `QRect::setHeight`. -/
def Rect.setHeight (r : Rect) (h : Int) : Rect :=
  { r with height := h }

/-- `qBound(min, val, max) = qMax(min, qMin(max, val))`. -/
def qBound (lo v hi : Int) : Int :=
  max lo (min hi v)

/-- `qRound`: round half away from zero, as Qt does for `QSize * qreal`. -/
def qRound (q : ℚ) : Int :=
  if 0 ≤ q then ⌊q + 1/2⌋ else ⌈q - 1/2⌉

/-- C++ `static_cast<int>` of a floating value: truncation toward zero. -/
def ratTrunc (q : ℚ) : Int :=
  Int.tdiv q.num q.den

/-- `QSize operator*(qreal)`: scales both dimensions, rounding with `qRound`. -/
def Size.scaleQSize (s : Size) (f : ℚ) : Size :=
  ⟨qRound (s.width * f), qRound (s.height * f)⟩

/-- JSON values (`QJsonValue`/`QJsonObject`/`QJsonDocument` payloads). -/
inductive Json where
  | null : Json
  | bool (b : Bool) : Json
  | int (n : Int) : Json
  | str (s : String) : Json
  | arr (elems : List Json) : Json
  | obj (fields : List (String × Json)) : Json

/-- Assoc-list lookup used by `QJsonObject::operator[]` (keys we build are
distinct, so first match suffices); a missing key yields `null`
(Qt: `QJsonValue::Undefined`, whose `toString`/`toBool` give defaults). -/
def lookupField (fields : List (String × Json)) (k : String) : Json :=
  match fields with
  | [] => Json.null
  | (k', v) :: rest => if k' = k then v else lookupField rest k

/-- `QJsonValue` indexing on a document/value: non-objects have no fields. -/
def Json.getField : Json → String → Json
  | Json.obj fields, k => lookupField fields k
  | _, _ => Json.null

/-- `QJsonValue::toString()`: empty string on non-strings. -/
def Json.toStringV : Json → String
  | Json.str s => s
  | _ => ""

/-- `QJsonValue::toBool()`: false on non-booleans. -/
def Json.toBoolV : Json → Bool
  | Json.bool b => b
  | _ => false

/-- `QJsonValue::toArray()`: empty array on non-arrays. -/
def Json.toArrayV : Json → List Json
  | Json.arr a => a
  | _ => []

/-- `QJsonValue::toObject()` / `QJsonDocument::object()`: empty on non-objects. -/
def Json.toObjectV : Json → List (String × Json)
  | Json.obj f => f
  | _ => []

/-! ## InputHandler (src/qt-gui/src/input/input_handler.cpp) -/

/-- The data members of `InputHandler`.  `m_keyRepeatTimer` is modelled by its
active flag and current interval. -/
structure InputHandlerState where
  inputCaptured : Bool
  mouseSensitivity : ℚ
  keyboardRepeatDelay : Int
  keyboardRepeatRate : Int
  lastPressedKey : Int
  pressedButtons : Finset Int
  pressedKeys : Finset Int
  lastMousePos : Point
  timerActive : Bool
  timerInterval : Int
  zoomLevel : ℚ
  localResolution : Size
  remoteResolution : Size

/-- The `InputHandler` constructor's member initialisation. -/
def InputHandler.initialState : InputHandlerState where
  inputCaptured := false
  mouseSensitivity := 1
  keyboardRepeatDelay := 500
  keyboardRepeatRate := 30
  lastPressedKey := 0
  pressedButtons := ∅
  pressedKeys := ∅
  lastMousePos := ⟨0, 0⟩
  timerActive := false
  timerInterval := 0
  zoomLevel := 1
  localResolution := ⟨1024, 768⟩
  remoteResolution := ⟨1024, 768⟩

/-- The signals `InputHandler` emits. -/
inductive InputSignal where
  | inputEventSent (doc : Json) : InputSignal
  | mouseEvent (x y button : Int) (pressed : Bool) : InputSignal
  | keyEvent (key : Int) (pressed : Bool) : InputSignal
  | wheelEvent (delta : Int) : InputSignal

/-- The `QEvent::Type` values a `QMouseEvent` can carry here. -/
inductive MouseEventType where
  | mouseButtonPress
  | mouseButtonRelease
  | mouseMove
  | mouseButtonDblClick
deriving DecidableEq, Repr

/-- `QMouseEvent`: position, the button that caused the event (its
`Qt::MouseButton` numeric flag value), and the event type. -/
structure MouseEvent where
  pos : Point
  button : Int
  eventType : MouseEventType
deriving DecidableEq, Repr

/-- The `QEvent::Type` values a `QKeyEvent` can carry. -/
inductive KeyEventType where
  | keyPress
  | keyRelease
deriving DecidableEq, Repr

/-- `QKeyEvent`: Qt key code, event type, and `isAutoRepeat()`. -/
structure KeyEvent where
  key : Int
  eventType : KeyEventType
  autoRepeat : Bool
deriving DecidableEq, Repr

/-- `QWheelEvent`: the y component of `angleDelta()`. -/
structure WheelEvent where
  angleDeltaY : Int
deriving DecidableEq, Repr

/-- `InputHandler::convertQtKeyToRDP` (const): the switch over Qt key codes,
with the Qt hex values inlined (`Qt::Key_Escape = 0x01000000`,
`Qt::Key_Tab = 0x01000001`, `Qt::Key_CapsLock = 0x01000024`,
`Qt::Key_Shift = 0x01000020`, `Qt::Key_Control = 0x01000021`,
`Qt::Key_Alt = 0x01000023`, `Qt::Key_Backspace = 0x01000003`,
`Qt::Key_Return = 0x01000004`, `Qt::Key_Enter = 0x01000005`,
`Qt::Key_Space = 0x20`, `Qt::Key_Left/Up/Right/Down = 0x01000012..15`,
`Qt::Key_Insert = 0x01000006`, `Qt::Key_Delete = 0x01000007`,
`Qt::Key_Home = 0x01000010`, `Qt::Key_End = 0x01000011`,
`Qt::Key_PageUp = 0x01000016`, `Qt::Key_PageDown = 0x01000017`,
`Qt::Key_F1..F12 = 0x01000030..0x0100003B`, `Qt::Key_A..Z = 0x41..0x5A`,
`Qt::Key_0..9 = 0x30..0x39`).  The state parameter mirrors the implicit
`this` of the const member function; no member is read. -/
def InputHandler.convertQtKeyToRDP (s : InputHandlerState) (qtKey : Int) : Int :=
  if qtKey = 0x01000000 then 0x1B        -- Qt::Key_Escape
  else if qtKey = 0x01000001 then 0x09   -- Qt::Key_Tab
  else if qtKey = 0x01000024 then 0x14   -- Qt::Key_CapsLock
  else if qtKey = 0x01000020 then 0x10   -- Qt::Key_Shift
  else if qtKey = 0x01000021 then 0x11   -- Qt::Key_Control
  else if qtKey = 0x01000023 then 0x12   -- Qt::Key_Alt
  else if qtKey = 0x01000003 then 0x08   -- Qt::Key_Backspace
  else if qtKey = 0x01000004 then 0x0D   -- Qt::Key_Return
  else if qtKey = 0x01000005 then 0x0D   -- Qt::Key_Enter
  else if qtKey = 0x20 then 0x20         -- Qt::Key_Space
  else if qtKey = 0x01000012 then 0x25   -- Qt::Key_Left
  else if qtKey = 0x01000013 then 0x26   -- Qt::Key_Up
  else if qtKey = 0x01000014 then 0x27   -- Qt::Key_Right
  else if qtKey = 0x01000015 then 0x28   -- Qt::Key_Down
  else if qtKey = 0x01000006 then 0x2D   -- Qt::Key_Insert
  else if qtKey = 0x01000007 then 0x2E   -- Qt::Key_Delete
  else if qtKey = 0x01000010 then 0x24   -- Qt::Key_Home
  else if qtKey = 0x01000011 then 0x23   -- Qt::Key_End
  else if qtKey = 0x01000016 then 0x21   -- Qt::Key_PageUp
  else if qtKey = 0x01000017 then 0x22   -- Qt::Key_PageDown
  else if qtKey = 0x01000030 then 0x70   -- Qt::Key_F1
  else if qtKey = 0x01000031 then 0x71   -- Qt::Key_F2
  else if qtKey = 0x01000032 then 0x72   -- Qt::Key_F3
  else if qtKey = 0x01000033 then 0x73   -- Qt::Key_F4
  else if qtKey = 0x01000034 then 0x74   -- Qt::Key_F5
  else if qtKey = 0x01000035 then 0x75   -- Qt::Key_F6
  else if qtKey = 0x01000036 then 0x76   -- Qt::Key_F7
  else if qtKey = 0x01000037 then 0x77   -- Qt::Key_F8
  else if qtKey = 0x01000038 then 0x78   -- Qt::Key_F9
  else if qtKey = 0x01000039 then 0x79   -- Qt::Key_F10
  else if qtKey = 0x0100003A then 0x7A   -- Qt::Key_F11
  else if qtKey = 0x0100003B then 0x7B   -- Qt::Key_F12
  else if 0x41 ≤ qtKey ∧ qtKey ≤ 0x5A then qtKey - 0x41 + 65   -- Key_A..Key_Z → ASCII
  else if 0x30 ≤ qtKey ∧ qtKey ≤ 0x39 then qtKey - 0x30 + 48   -- Key_0..Key_9 → ASCII
  else 0

/-- The Qt key codes that `InputHandler::convertQtKeyToRDP`'s switch handles
(every other key falls to the `return 0` default). -/
def InputHandler.isMappedKey (k : Int) : Prop :=
  k ∈ ([0x01000000, 0x01000001, 0x01000024, 0x01000020, 0x01000021, 0x01000023,
        0x01000003, 0x01000004, 0x01000005, 0x20,
        0x01000012, 0x01000013, 0x01000014, 0x01000015,
        0x01000006, 0x01000007, 0x01000010, 0x01000011, 0x01000016, 0x01000017,
        0x01000030, 0x01000031, 0x01000032, 0x01000033, 0x01000034, 0x01000035,
        0x01000036, 0x01000037, 0x01000038, 0x01000039, 0x0100003A, 0x0100003B] : List Int)
  ∨ (0x41 ≤ k ∧ k ≤ 0x5A) ∨ (0x30 ≤ k ∧ k ≤ 0x39)

instance (k : Int) : Decidable (InputHandler.isMappedKey k) := by
  unfold InputHandler.isMappedKey
  infer_instance

/-- `InputHandler::convertQtMouseButton` (const).  Qt flag values:
`LeftButton = 1`, `RightButton = 2`, `MiddleButton = 4`, `XButton1 = 8`,
`XButton2 = 16`. -/
def InputHandler.convertQtMouseButton (s : InputHandlerState) (button : Int) : Int :=
  if button = 1 then 1
  else if button = 2 then 2
  else if button = 4 then 4
  else if button = 8 then 8
  else if button = 16 then 16
  else 0

/-- `InputHandler::convertToRemoteCoordinates` (const). -/
def InputHandler.convertToRemoteCoordinates (s : InputHandlerState) (localPoint : Point) : Point :=
  if s.remoteResolution.isEmpty || s.localResolution.isEmpty then localPoint
  else
    let scaleX : ℚ := (s.remoteResolution.width : ℚ) / (s.localResolution.width : ℚ)
    let scaleY : ℚ := (s.remoteResolution.height : ℚ) / (s.localResolution.height : ℚ)
    let remoteX : Int := ratTrunc ((localPoint.x : ℚ) * scaleX * s.zoomLevel)
    let remoteY : Int := ratTrunc ((localPoint.y : ℚ) * scaleY * s.zoomLevel)
    ⟨remoteX, remoteY⟩

/-- `InputHandler::sendMouseEvent`: builds the JSON event and emits
`inputEventSent` and `mouseEvent`. -/
def InputHandler.sendMouseEventSignals (x y button : Int) (pressed : Bool) : List InputSignal :=
  [InputSignal.inputEventSent (Json.obj
      [("type", Json.str "mouse"), ("x", Json.int x), ("y", Json.int y),
       ("button", Json.int button), ("pressed", Json.bool pressed)]),
   InputSignal.mouseEvent x y button pressed]

/-- `InputHandler::sendKeyEvent`: builds the JSON event and emits
`inputEventSent` and `keyEvent`. -/
def InputHandler.sendKeyEventSignals (key : Int) (pressed : Bool) : List InputSignal :=
  [InputSignal.inputEventSent (Json.obj
      [("type", Json.str "keyboard"), ("key", Json.int key), ("pressed", Json.bool pressed)]),
   InputSignal.keyEvent key pressed]

/-- `InputHandler::sendWheelEvent`: builds the JSON event and emits
`inputEventSent` and `wheelEvent`. -/
def InputHandler.sendWheelEventSignals (delta : Int) : List InputSignal :=
  [InputSignal.inputEventSent (Json.obj
      [("type", Json.str "wheel"), ("delta", Json.int delta)]),
   InputSignal.wheelEvent delta]

/-- `InputHandler::handleMouseEvent`.  The `|=`/`&= ~` on the one-hot
`Qt::MouseButtons` bitmask are the set insert/erase of the button flag. -/
def InputHandler.handleMouseEvent (s : InputHandlerState) (e : MouseEvent) :
    InputHandlerState × List InputSignal :=
  if s.inputCaptured = false then (s, [])
  else
    let remotePos := InputHandler.convertToRemoteCoordinates s e.pos
    let step : InputHandlerState × List InputSignal :=
      match e.eventType with
      | MouseEventType.mouseButtonPress =>
          ({ s with pressedButtons := insert e.button s.pressedButtons },
           InputHandler.sendMouseEventSignals remotePos.x remotePos.y
             (InputHandler.convertQtMouseButton s e.button) true)
      | MouseEventType.mouseButtonRelease =>
          ({ s with pressedButtons := s.pressedButtons.erase e.button },
           InputHandler.sendMouseEventSignals remotePos.x remotePos.y
             (InputHandler.convertQtMouseButton s e.button) false)
      | MouseEventType.mouseMove =>
          if s.pressedButtons ≠ ∅ then
            (s, InputHandler.sendMouseEventSignals remotePos.x remotePos.y 0 true)
          else (s, [])
      | MouseEventType.mouseButtonDblClick => (s, [])
    ({ step.1 with lastMousePos := e.pos }, step.2)

/-- `InputHandler::handleKeyEvent`. -/
def InputHandler.handleKeyEvent (s : InputHandlerState) (e : KeyEvent) :
    InputHandlerState × List InputSignal :=
  if s.inputCaptured = false then (s, [])
  else if InputHandler.convertQtKeyToRDP s e.key = 0 then (s, [])  -- unsupported key
  else
    let rdpKey := InputHandler.convertQtKeyToRDP s e.key
    if e.eventType = KeyEventType.keyPress then
      ({ s with pressedKeys := insert e.key s.pressedKeys,
                lastPressedKey := e.key,
                timerActive := true,
                timerInterval := if e.autoRepeat then s.keyboardRepeatRate
                                 else s.keyboardRepeatDelay },
       InputHandler.sendKeyEventSignals rdpKey true)
    else
      ({ s with pressedKeys := s.pressedKeys.erase e.key, timerActive := false },
       InputHandler.sendKeyEventSignals rdpKey false)

/-- `InputHandler::handleWheelEvent`: `angleDelta().y() / 120` (C++ integer
division truncates toward zero). -/
def InputHandler.handleWheelEvent (s : InputHandlerState) (e : WheelEvent) :
    InputHandlerState × List InputSignal :=
  if s.inputCaptured = false then (s, [])
  else
    let delta := Int.tdiv e.angleDeltaY 120
    (s, InputHandler.sendWheelEventSignals delta)

/-! ## RDPDisplayWidget (src/qt-gui/src/display/rdp_display.cpp) -/

/-- The data members of `RDPDisplayWidget` relevant to the embedded logic.
`widgetSize` is the widget's current size, so `rect()` is
`QRect(0, 0, widgetSize.width, widgetSize.height)`. -/
structure DisplayState where
  zoomLevel : ℚ
  isFullscreen : Bool
  remoteResolution : Size
  widgetSize : Size
  mouseCaptured : Bool
  keyboardCaptured : Bool
  pressedButtons : Finset Int
  useHardwareAcceleration : Bool

/-- The `RDPDisplayWidget` constructor's member initialisation (the initial
widget size is its `m_widgetSize` default of 800×600). -/
def RDPDisplay.initialState : DisplayState where
  zoomLevel := 1
  isFullscreen := false
  remoteResolution := ⟨1024, 768⟩
  widgetSize := ⟨800, 600⟩
  mouseCaptured := false
  keyboardCaptured := false
  pressedButtons := ∅
  useHardwareAcceleration := true

/-- `RDPDisplayWidget::convertToRemoteCoordinates` (const): computes the
centred display rectangle, maps the local point into remote space, and clamps
with `qBound` to the remote resolution. -/
def RDPDisplay.convertToRemoteCoordinates (s : DisplayState) (localPoint : Point) : Point :=
  if s.remoteResolution.isEmpty then localPoint
  else
    let scaledSize := s.remoteResolution.scaleQSize s.zoomLevel
    let r0 : Rect := ⟨0, 0, s.widgetSize.width, s.widgetSize.height⟩  -- rect()
    let r1 : Rect :=
      if scaledSize.width < r0.width then
        (r0.setX (Int.tdiv (r0.width - scaledSize.width) 2)).setWidth scaledSize.width
      else r0
    let r2 : Rect :=
      if scaledSize.height < r1.height then
        (r1.setY (Int.tdiv (r1.height - scaledSize.height) 2)).setHeight scaledSize.height
      else r1
    let relativeX := localPoint.x - r2.x
    let relativeY := localPoint.y - r2.y
    let remoteX := ratTrunc ((relativeX : ℚ) / s.zoomLevel)
    let remoteY := ratTrunc ((relativeY : ℚ) / s.zoomLevel)
    ⟨qBound 0 remoteX (s.remoteResolution.width - 1),
     qBound 0 remoteY (s.remoteResolution.height - 1)⟩

/-- `RDPDisplayWidget::convertQtMouseButton` (const). -/
def RDPDisplay.convertQtMouseButton (s : DisplayState) (button : Int) : Int :=
  if button = 1 then 1        -- Qt::LeftButton
  else if button = 2 then 2   -- Qt::RightButton
  else if button = 4 then 3   -- Qt::MiddleButton
  else if button = 8 then 4   -- Qt::XButton1
  else if button = 16 then 5  -- Qt::XButton2
  else 0

/-- `RDPDisplayWidget::convertQtKeyToRDP` (const): a smaller switch plus the
printable-ASCII fallback `0x20..0x7E`. -/
def RDPDisplay.convertQtKeyToRDP (s : DisplayState) (qtKey : Int) : Int :=
  if qtKey = 0x01000000 then 0x1B        -- Qt::Key_Escape
  else if qtKey = 0x01000004 then 0x0D   -- Qt::Key_Return
  else if qtKey = 0x01000001 then 0x09   -- Qt::Key_Tab
  else if qtKey = 0x01000003 then 0x08   -- Qt::Key_Backspace
  else if qtKey = 0x01000007 then 0x2E   -- Qt::Key_Delete
  else if qtKey = 0x01000006 then 0x2D   -- Qt::Key_Insert
  else if qtKey = 0x01000010 then 0x24   -- Qt::Key_Home
  else if qtKey = 0x01000011 then 0x23   -- Qt::Key_End
  else if qtKey = 0x01000016 then 0x21   -- Qt::Key_PageUp
  else if qtKey = 0x01000017 then 0x22   -- Qt::Key_PageDown
  else if qtKey = 0x01000013 then 0x26   -- Qt::Key_Up
  else if qtKey = 0x01000015 then 0x28   -- Qt::Key_Down
  else if qtKey = 0x01000012 then 0x25   -- Qt::Key_Left
  else if qtKey = 0x01000014 then 0x27   -- Qt::Key_Right
  else if qtKey = 0x01000030 then 0x70   -- Qt::Key_F1
  else if qtKey = 0x01000031 then 0x71   -- Qt::Key_F2
  else if qtKey = 0x01000032 then 0x72   -- Qt::Key_F3
  else if qtKey = 0x01000033 then 0x73   -- Qt::Key_F4
  else if qtKey = 0x01000034 then 0x74   -- Qt::Key_F5
  else if qtKey = 0x01000035 then 0x75   -- Qt::Key_F6
  else if qtKey = 0x01000036 then 0x76   -- Qt::Key_F7
  else if qtKey = 0x01000037 then 0x77   -- Qt::Key_F8
  else if qtKey = 0x01000038 then 0x78   -- Qt::Key_F9
  else if qtKey = 0x01000039 then 0x79   -- Qt::Key_F10
  else if qtKey = 0x0100003A then 0x7A   -- Qt::Key_F11
  else if qtKey = 0x0100003B then 0x7B   -- Qt::Key_F12
  else if 0x20 ≤ qtKey ∧ qtKey ≤ 0x7E then qtKey  -- printable ASCII
  else 0

/-! ## GoRDPBridge (src/qt-gui/src/utils/gordp_bridge.cpp) -/

/-- `QAbstractSocket::SocketState` of the WebSocket. -/
inductive SocketState where
  | unconnectedState
  | hostLookupState
  | connectingState
  | connectedState
  | boundState
  | closingState
  | listeningState
deriving DecidableEq, Repr

/-- `QProcess::ProcessState` of the engine subprocess. -/
inductive ProcState where
  | notRunning
  | starting
  | running
deriving DecidableEq, Repr

/-- The data members of `GoRDPBridge`.  `m_websocket` and `m_gordpProcess`
are modelled by their state enums; the raw byte payload of a binary
WebSocket message is a `List Nat` and a decoded `QImage` is the `List Nat`
of its pixel data (opaque to all the embedded logic). -/
structure BridgeState where
  apiPort : Int
  apiUrl : String
  isConnected : Bool
  apiRunning : Bool
  currentServer : String
  currentPort : Int
  currentUsername : String
  wsState : SocketState
  processState : ProcState
  lastPerformanceStats : List (String × Json)

/-- The `GoRDPBridge` constructor's member initialisation
(`m_apiPort = 8080`, `m_apiUrl = "http://localhost:8080"`; `m_currentPort`
is left uninitialised by the constructor and only ever written before any
read, so the model picks 0). -/
def GoRDPBridge.initialState : BridgeState where
  apiPort := 8080
  apiUrl := "http://localhost:8080"
  isConnected := false
  apiRunning := false
  currentServer := ""
  currentPort := 0
  currentUsername := ""
  wsState := SocketState.unconnectedState
  processState := ProcState.notRunning
  lastPerformanceStats := []

/-- The external effects a bridge call performs. -/
inductive BridgeAction where
  | httpPost (url : String) (body : Json) : BridgeAction
  | wsSendText (msg : Json) : BridgeAction
  | wsOpen (url : String) : BridgeAction
  | wsClose : BridgeAction
  | processStart (program : String) (args : List String) : BridgeAction
  | processTerminate : BridgeAction
  | processKill : BridgeAction

/-- The signals `GoRDPBridge` emits. -/
inductive BridgeSignal where
  | connectionStatusChanged (connected : Bool) : BridgeSignal
  | connectionError (msg : String) : BridgeSignal
  | bitmapReceived (image : List Nat) : BridgeSignal
  | connectionHistoryLoaded (history : List Json) : BridgeSignal
  | favoritesLoaded (favorites : List Json) : BridgeSignal
  | performanceStatsReceived (stats : List (String × Json)) : BridgeSignal
  | apiStarted : BridgeSignal
  | apiStopped : BridgeSignal
  | apiError (msg : String) : BridgeSignal

/-- The result of a bridge call: new state, external actions, signals. -/
abbrev BridgeStep := BridgeState × List BridgeAction × List BridgeSignal

/-- `GoRDPBridge::sendHttpRequest`: posts JSON to `m_apiUrl + endpoint`. -/
def GoRDPBridge.sendHttpRequest (s : BridgeState) (endpoint : String) (data : Json) :
    List BridgeAction :=
  [BridgeAction.httpPost (s.apiUrl ++ endpoint) data]

/-- `GoRDPBridge::startGoRDPAPI`.  `exePath` is the result of
`getGoRDPExecutablePath()` (`none` for an empty `QString`); `startOk` is the
result of `m_gordpProcess->waitForStarted()`. -/
def GoRDPBridge.startGoRDPAPI (s : BridgeState) (exePath : Option String)
    (startOk : Bool) : BridgeStep :=
  if s.apiRunning then (s, [], [])
  else
    match exePath with
    | none => (s, [], [BridgeSignal.apiError "GoRDP executable not found"])
    | some path =>
        let args := ["--api", "--port", toString s.apiPort]
        if startOk then
          ({ s with apiRunning := true },
           [BridgeAction.processStart path args,
            BridgeAction.wsOpen ("ws://localhost:" ++ toString s.apiPort ++ "/ws")],
           [BridgeSignal.apiStarted])
        else
          (s, [BridgeAction.processStart path args],
           [BridgeSignal.apiError "Failed to start GoRDP API server"])

/-- `GoRDPBridge::stopGoRDPAPI`.  `finishedWithin5000` is the result of
`m_gordpProcess->waitForFinished(5000)` after `terminate()`. -/
def GoRDPBridge.stopGoRDPAPI (s : BridgeState) (finishedWithin5000 : Bool) : BridgeStep :=
  let procActions :=
    if s.processState ≠ ProcState.notRunning then
      if finishedWithin5000 then [BridgeAction.processTerminate]
      else [BridgeAction.processTerminate, BridgeAction.processKill]
    else []
  ({ s with apiRunning := false, isConnected := false,
            wsState := SocketState.unconnectedState,
            processState := ProcState.notRunning },
   procActions ++ [BridgeAction.wsClose],
   [BridgeSignal.apiStopped])

/-- `GoRDPBridge::connectToServer`.  `options` is the `QJsonObject` of extra
options (`isEmpty()` is `options = []`). -/
def GoRDPBridge.connectToServer (s : BridgeState) (server : String) (port : Int)
    (username password : String) (options : List (String × Json)) : BridgeStep :=
  if s.apiRunning = false then
    (s, [], [BridgeSignal.connectionError "GoRDP API not running"])
  else
    let s1 := { s with currentServer := server, currentPort := port,
                       currentUsername := username }
    let base := [("server", Json.str server), ("port", Json.int port),
                 ("username", Json.str username), ("password", Json.str password)]
    let requestData := if options.isEmpty = false then base ++ [("options", Json.obj options)] else base
    (s1, GoRDPBridge.sendHttpRequest s1 "/api/connect" (Json.obj requestData), [])

/-- `GoRDPBridge::sendMouseEvent`: sends the JSON event over the WebSocket
only in the connected state. -/
def GoRDPBridge.sendMouseEvent (s : BridgeState) (x y button : Int) (pressed : Bool) :
    BridgeStep :=
  if s.wsState = SocketState.connectedState then
    (s, [BridgeAction.wsSendText (Json.obj
          [("type", Json.str "mouse"), ("x", Json.int x), ("y", Json.int y),
           ("button", Json.int button), ("pressed", Json.bool pressed)])], [])
  else (s, [], [])

/-- `GoRDPBridge::sendKeyEvent`. -/
def GoRDPBridge.sendKeyEvent (s : BridgeState) (key : Int) (pressed : Bool) : BridgeStep :=
  if s.wsState = SocketState.connectedState then
    (s, [BridgeAction.wsSendText (Json.obj
          [("type", Json.str "keyboard"), ("key", Json.int key),
           ("pressed", Json.bool pressed)])], [])
  else (s, [], [])

/-- `GoRDPBridge::sendWheelEvent`. -/
def GoRDPBridge.sendWheelEvent (s : BridgeState) (delta : Int) : BridgeStep :=
  if s.wsState = SocketState.connectedState then
    (s, [BridgeAction.wsSendText (Json.obj
          [("type", Json.str "wheel"), ("delta", Json.int delta)])], [])
  else (s, [], [])

/-- `GoRDPBridge::handleHttpResponse`: dispatch on the response's "type". -/
def GoRDPBridge.handleHttpResponse (s : BridgeState) (response : Json) : BridgeStep :=
  let obj := response.toObjectV
  let t := (lookupField obj "type").toStringV
  if t = "connection_status" then
    let connected := (lookupField obj "connected").toBoolV
    ({ s with isConnected := connected }, [],
     [BridgeSignal.connectionStatusChanged connected])
  else if t = "error" then
    (s, [], [BridgeSignal.connectionError ((lookupField obj "message").toStringV)])
  else if t = "history" then
    (s, [], [BridgeSignal.connectionHistoryLoaded ((lookupField obj "data").toArrayV)])
  else if t = "favorites" then
    (s, [], [BridgeSignal.favoritesLoaded ((lookupField obj "data").toArrayV)])
  else if t = "performance" then
    let stats := (lookupField obj "data").toObjectV
    ({ s with lastPerformanceStats := stats }, [],
     [BridgeSignal.performanceStatsReceived stats])
  else (s, [], [])

/-- `GoRDPBridge::onNetworkReplyFinished`.  `replyError` is
`reply->errorString()` when `reply->error() != NoError`, else `none`;
`parsed` is the `QJsonDocument::fromJson` result on the reply body
(`none` on a parse error). -/
def GoRDPBridge.onNetworkReplyFinished (s : BridgeState) (replyError : Option String)
    (parsed : Option Json) : BridgeStep :=
  match replyError with
  | some err => (s, [], [BridgeSignal.connectionError err])
  | none =>
      match parsed with
      | none => (s, [], [BridgeSignal.connectionError "Invalid JSON response"])
      | some doc => GoRDPBridge.handleHttpResponse s doc

/-- `GoRDPBridge::decodeBitmapData`: tries `QImage::loadFromData` (passed in
as `loadFromData`); a failure yields the null `QImage` (`none`). -/
def GoRDPBridge.decodeBitmapData (loadFromData : List Nat → Option (List Nat))
    (data : List Nat) : Option (List Nat) :=
  loadFromData data

/-- `GoRDPBridge::onWebSocketBinaryMessageReceived`: decodes the payload and
emits `bitmapReceived` only when the decoded image is not null. -/
def GoRDPBridge.onWebSocketBinaryMessageReceived (s : BridgeState)
    (loadFromData : List Nat → Option (List Nat)) (message : List Nat) : BridgeStep :=
  match GoRDPBridge.decodeBitmapData loadFromData message with
  | some image => (s, [], [BridgeSignal.bitmapReceived image])
  | none => (s, [], [])

/-! ## Claims -/

/-- Claim C1: `InputHandler::convertQtKeyToRDP` maps `Qt::Key_A..Key_Z`
(0x41..0x5A) to the ASCII codes of the uppercase letters, `Qt::Key_0..Key_9`
(0x30..0x39) to the ASCII digit codes, `F1..F12` (0x01000030..0x0100003B) to
0x70..0x7B, the arrow keys Left/Up/Right/Down to 0x25/0x26/0x27/0x28, and
every key outside its switch cases to 0; and `InputHandler::handleKeyEvent`
emits no signal when the conversion returns 0. -/
theorem claim_C1_key_mapping :
    (∀ (s : InputHandlerState) (k : Int), 0x41 ≤ k → k ≤ 0x5A →
        InputHandler.convertQtKeyToRDP s k = k - 0x41 + 65)
    ∧ (∀ (s : InputHandlerState) (k : Int), 0x30 ≤ k → k ≤ 0x39 →
        InputHandler.convertQtKeyToRDP s k = k - 0x30 + 48)
    ∧ (∀ s : InputHandlerState,
        InputHandler.convertQtKeyToRDP s 0x01000030 = 0x70 ∧
        InputHandler.convertQtKeyToRDP s 0x01000031 = 0x71 ∧
        InputHandler.convertQtKeyToRDP s 0x01000032 = 0x72 ∧
        InputHandler.convertQtKeyToRDP s 0x01000033 = 0x73 ∧
        InputHandler.convertQtKeyToRDP s 0x01000034 = 0x74 ∧
        InputHandler.convertQtKeyToRDP s 0x01000035 = 0x75 ∧
        InputHandler.convertQtKeyToRDP s 0x01000036 = 0x76 ∧
        InputHandler.convertQtKeyToRDP s 0x01000037 = 0x77 ∧
        InputHandler.convertQtKeyToRDP s 0x01000038 = 0x78 ∧
        InputHandler.convertQtKeyToRDP s 0x01000039 = 0x79 ∧
        InputHandler.convertQtKeyToRDP s 0x0100003A = 0x7A ∧
        InputHandler.convertQtKeyToRDP s 0x0100003B = 0x7B)
    ∧ (∀ s : InputHandlerState,
        InputHandler.convertQtKeyToRDP s 0x01000012 = 0x25 ∧
        InputHandler.convertQtKeyToRDP s 0x01000013 = 0x26 ∧
        InputHandler.convertQtKeyToRDP s 0x01000014 = 0x27 ∧
        InputHandler.convertQtKeyToRDP s 0x01000015 = 0x28)
    ∧ (∀ (s : InputHandlerState) (k : Int), ¬ InputHandler.isMappedKey k →
        InputHandler.convertQtKeyToRDP s k = 0)
    ∧ (∀ (s : InputHandlerState) (e : KeyEvent),
        InputHandler.convertQtKeyToRDP s e.key = 0 →
        (InputHandler.handleKeyEvent s e).2 = []) := by
  refine ⟨?_, ?_, ?_, ?_, ?_, ?_⟩
  · intro s k h1 h2
    unfold InputHandler.convertQtKeyToRDP
    rw [if_neg (show ¬ (k = 0x01000000) by omega), if_neg (show ¬ (k = 0x01000001) by omega),
        if_neg (show ¬ (k = 0x01000024) by omega), if_neg (show ¬ (k = 0x01000020) by omega),
        if_neg (show ¬ (k = 0x01000021) by omega), if_neg (show ¬ (k = 0x01000023) by omega),
        if_neg (show ¬ (k = 0x01000003) by omega), if_neg (show ¬ (k = 0x01000004) by omega),
        if_neg (show ¬ (k = 0x01000005) by omega), if_neg (show ¬ (k = 0x20) by omega),
        if_neg (show ¬ (k = 0x01000012) by omega), if_neg (show ¬ (k = 0x01000013) by omega),
        if_neg (show ¬ (k = 0x01000014) by omega), if_neg (show ¬ (k = 0x01000015) by omega),
        if_neg (show ¬ (k = 0x01000006) by omega), if_neg (show ¬ (k = 0x01000007) by omega),
        if_neg (show ¬ (k = 0x01000010) by omega), if_neg (show ¬ (k = 0x01000011) by omega),
        if_neg (show ¬ (k = 0x01000016) by omega), if_neg (show ¬ (k = 0x01000017) by omega),
        if_neg (show ¬ (k = 0x01000030) by omega), if_neg (show ¬ (k = 0x01000031) by omega),
        if_neg (show ¬ (k = 0x01000032) by omega), if_neg (show ¬ (k = 0x01000033) by omega),
        if_neg (show ¬ (k = 0x01000034) by omega), if_neg (show ¬ (k = 0x01000035) by omega),
        if_neg (show ¬ (k = 0x01000036) by omega), if_neg (show ¬ (k = 0x01000037) by omega),
        if_neg (show ¬ (k = 0x01000038) by omega), if_neg (show ¬ (k = 0x01000039) by omega),
        if_neg (show ¬ (k = 0x0100003A) by omega), if_neg (show ¬ (k = 0x0100003B) by omega),
        if_pos (show 0x41 ≤ k ∧ k ≤ 0x5A from ⟨h1, h2⟩)]
  · intro s k h1 h2
    unfold InputHandler.convertQtKeyToRDP
    rw [if_neg (show ¬ (k = 0x01000000) by omega), if_neg (show ¬ (k = 0x01000001) by omega),
        if_neg (show ¬ (k = 0x01000024) by omega), if_neg (show ¬ (k = 0x01000020) by omega),
        if_neg (show ¬ (k = 0x01000021) by omega), if_neg (show ¬ (k = 0x01000023) by omega),
        if_neg (show ¬ (k = 0x01000003) by omega), if_neg (show ¬ (k = 0x01000004) by omega),
        if_neg (show ¬ (k = 0x01000005) by omega), if_neg (show ¬ (k = 0x20) by omega),
        if_neg (show ¬ (k = 0x01000012) by omega), if_neg (show ¬ (k = 0x01000013) by omega),
        if_neg (show ¬ (k = 0x01000014) by omega), if_neg (show ¬ (k = 0x01000015) by omega),
        if_neg (show ¬ (k = 0x01000006) by omega), if_neg (show ¬ (k = 0x01000007) by omega),
        if_neg (show ¬ (k = 0x01000010) by omega), if_neg (show ¬ (k = 0x01000011) by omega),
        if_neg (show ¬ (k = 0x01000016) by omega), if_neg (show ¬ (k = 0x01000017) by omega),
        if_neg (show ¬ (k = 0x01000030) by omega), if_neg (show ¬ (k = 0x01000031) by omega),
        if_neg (show ¬ (k = 0x01000032) by omega), if_neg (show ¬ (k = 0x01000033) by omega),
        if_neg (show ¬ (k = 0x01000034) by omega), if_neg (show ¬ (k = 0x01000035) by omega),
        if_neg (show ¬ (k = 0x01000036) by omega), if_neg (show ¬ (k = 0x01000037) by omega),
        if_neg (show ¬ (k = 0x01000038) by omega), if_neg (show ¬ (k = 0x01000039) by omega),
        if_neg (show ¬ (k = 0x0100003A) by omega), if_neg (show ¬ (k = 0x0100003B) by omega),
        if_neg (show ¬ (0x41 ≤ k ∧ k ≤ 0x5A) by omega),
        if_pos (show 0x30 ≤ k ∧ k ≤ 0x39 from ⟨h1, h2⟩)]
  · intro s
    refine ⟨?_, ?_, ?_, ?_, ?_, ?_, ?_, ?_, ?_, ?_, ?_, ?_⟩ <;>
      simp [InputHandler.convertQtKeyToRDP]
  · intro s
    refine ⟨?_, ?_, ?_, ?_⟩ <;> simp [InputHandler.convertQtKeyToRDP]
  · intro s k h
    unfold InputHandler.isMappedKey at h
    simp only [List.mem_cons, List.not_mem_nil, or_false] at h
    unfold InputHandler.convertQtKeyToRDP
    rw [if_neg (show ¬ (k = 0x01000000) by omega), if_neg (show ¬ (k = 0x01000001) by omega),
        if_neg (show ¬ (k = 0x01000024) by omega), if_neg (show ¬ (k = 0x01000020) by omega),
        if_neg (show ¬ (k = 0x01000021) by omega), if_neg (show ¬ (k = 0x01000023) by omega),
        if_neg (show ¬ (k = 0x01000003) by omega), if_neg (show ¬ (k = 0x01000004) by omega),
        if_neg (show ¬ (k = 0x01000005) by omega), if_neg (show ¬ (k = 0x20) by omega),
        if_neg (show ¬ (k = 0x01000012) by omega), if_neg (show ¬ (k = 0x01000013) by omega),
        if_neg (show ¬ (k = 0x01000014) by omega), if_neg (show ¬ (k = 0x01000015) by omega),
        if_neg (show ¬ (k = 0x01000006) by omega), if_neg (show ¬ (k = 0x01000007) by omega),
        if_neg (show ¬ (k = 0x01000010) by omega), if_neg (show ¬ (k = 0x01000011) by omega),
        if_neg (show ¬ (k = 0x01000016) by omega), if_neg (show ¬ (k = 0x01000017) by omega),
        if_neg (show ¬ (k = 0x01000030) by omega), if_neg (show ¬ (k = 0x01000031) by omega),
        if_neg (show ¬ (k = 0x01000032) by omega), if_neg (show ¬ (k = 0x01000033) by omega),
        if_neg (show ¬ (k = 0x01000034) by omega), if_neg (show ¬ (k = 0x01000035) by omega),
        if_neg (show ¬ (k = 0x01000036) by omega), if_neg (show ¬ (k = 0x01000037) by omega),
        if_neg (show ¬ (k = 0x01000038) by omega), if_neg (show ¬ (k = 0x01000039) by omega),
        if_neg (show ¬ (k = 0x0100003A) by omega), if_neg (show ¬ (k = 0x0100003B) by omega),
        if_neg (show ¬ (0x41 ≤ k ∧ k ≤ 0x5A) by omega),
        if_neg (show ¬ (0x30 ≤ k ∧ k ≤ 0x39) by omega)]
  · intro s e h
    unfold InputHandler.handleKeyEvent
    rw [h]
    by_cases hc : s.inputCaptured = false
    · rw [if_pos hc]
    · rw [if_neg hc, if_pos rfl]

theorem claim_C1_key_mapping_witness :
    InputHandler.convertQtKeyToRDP InputHandler.initialState 0x42 = 0x42 - 0x41 + 65 ∧
    InputHandler.convertQtKeyToRDP InputHandler.initialState 0x37 = 0x37 - 0x30 + 48 ∧
    InputHandler.convertQtKeyToRDP InputHandler.initialState 0x01000034 = 0x74 ∧
    InputHandler.convertQtKeyToRDP InputHandler.initialState 0x01000012 = 0x25 ∧
    InputHandler.convertQtKeyToRDP InputHandler.initialState 0x01000008 = 0 ∧
    (InputHandler.handleKeyEvent { InputHandler.initialState with inputCaptured := true }
        ⟨0x01000008, KeyEventType.keyPress, false⟩).2 = [] :=
  ⟨claim_C1_key_mapping.1 _ 0x42 (by omega) (by omega),
   claim_C1_key_mapping.2.1 _ 0x37 (by omega) (by omega),
   (claim_C1_key_mapping.2.2.1 InputHandler.initialState).2.2.2.2.1,
   (claim_C1_key_mapping.2.2.2.1 InputHandler.initialState).1,
   claim_C1_key_mapping.2.2.2.2.1 _ 0x01000008
     (by simp [InputHandler.isMappedKey]),
   claim_C1_key_mapping.2.2.2.2.2 _ _
     (by simp [InputHandler.convertQtKeyToRDP])⟩

/-- Claim C7: the six coordinate/key-code mapping functions are pure.  In this
embedding each is a function of the object state and the argument and returns
only a value (mirroring the `const` qualifier on all six methods in the
source, which rules out state modification), so purity amounts to: the result
is determined by the argument together with the object fields the function
reads — the resolutions, the zoom level and the widget rectangle — and is
independent of every other field. -/
theorem claim_C7_purity :
    (∀ (s1 s2 : InputHandlerState) (k : Int),
        InputHandler.convertQtKeyToRDP s1 k = InputHandler.convertQtKeyToRDP s2 k)
    ∧ (∀ (s1 s2 : InputHandlerState) (b : Int),
        InputHandler.convertQtMouseButton s1 b = InputHandler.convertQtMouseButton s2 b)
    ∧ (∀ (s1 s2 : InputHandlerState) (p : Point),
        s1.localResolution = s2.localResolution →
        s1.remoteResolution = s2.remoteResolution →
        s1.zoomLevel = s2.zoomLevel →
        InputHandler.convertToRemoteCoordinates s1 p =
          InputHandler.convertToRemoteCoordinates s2 p)
    ∧ (∀ (d1 d2 : DisplayState) (p : Point),
        d1.remoteResolution = d2.remoteResolution →
        d1.zoomLevel = d2.zoomLevel →
        d1.widgetSize = d2.widgetSize →
        RDPDisplay.convertToRemoteCoordinates d1 p =
          RDPDisplay.convertToRemoteCoordinates d2 p)
    ∧ (∀ (d1 d2 : DisplayState) (k : Int),
        RDPDisplay.convertQtKeyToRDP d1 k = RDPDisplay.convertQtKeyToRDP d2 k)
    ∧ (∀ (d1 d2 : DisplayState) (b : Int),
        RDPDisplay.convertQtMouseButton d1 b = RDPDisplay.convertQtMouseButton d2 b) := by
  refine ⟨fun _ _ _ => rfl, fun _ _ _ => rfl, ?_, ?_, fun _ _ _ => rfl, fun _ _ _ => rfl⟩
  · intro s1 s2 p h1 h2 h3
    unfold InputHandler.convertToRemoteCoordinates
    rw [h1, h2, h3]
  · intro d1 d2 p h1 h2 h3
    unfold RDPDisplay.convertToRemoteCoordinates
    rw [h1, h2, h3]

theorem claim_C7_purity_witness :
    InputHandler.convertToRemoteCoordinates InputHandler.initialState ⟨10, 20⟩ =
      InputHandler.convertToRemoteCoordinates
        { InputHandler.initialState with inputCaptured := true, lastPressedKey := 65 } ⟨10, 20⟩ ∧
    RDPDisplay.convertToRemoteCoordinates RDPDisplay.initialState ⟨10, 20⟩ =
      RDPDisplay.convertToRemoteCoordinates
        { RDPDisplay.initialState with mouseCaptured := true, isFullscreen := true } ⟨10, 20⟩ :=
  ⟨claim_C7_purity.2.2.1 _ _ ⟨10, 20⟩ rfl rfl rfl,
   claim_C7_purity.2.2.2.1 _ _ ⟨10, 20⟩ rfl rfl rfl⟩

/-- Claim C9: for every input point, when the remote resolution is non-empty,
`RDPDisplayWidget::convertToRemoteCoordinates` returns a point with
x ∈ [0, remote width − 1] and y ∈ [0, remote height − 1]; when the remote
resolution is empty it returns the input point unchanged. -/
theorem claim_C9_clamping :
    (∀ (s : DisplayState) (p : Point), s.remoteResolution.isEmpty = false →
        0 ≤ (RDPDisplay.convertToRemoteCoordinates s p).x ∧
        (RDPDisplay.convertToRemoteCoordinates s p).x ≤ s.remoteResolution.width - 1 ∧
        0 ≤ (RDPDisplay.convertToRemoteCoordinates s p).y ∧
        (RDPDisplay.convertToRemoteCoordinates s p).y ≤ s.remoteResolution.height - 1)
    ∧ (∀ (s : DisplayState) (p : Point), s.remoteResolution.isEmpty = true →
        RDPDisplay.convertToRemoteCoordinates s p = p) := by
  constructor
  · intro s p h
    have hw : 1 ≤ s.remoteResolution.width ∧ 1 ≤ s.remoteResolution.height := by
      unfold Size.isEmpty at h
      simp only [Bool.or_eq_false_iff, decide_eq_false_iff_not, not_le] at h
      omega
    simp only [RDPDisplay.convertToRemoteCoordinates, h, Bool.false_eq_true,
      if_false, qBound]
    refine ⟨le_max_left _ _, ?_, le_max_left _ _, ?_⟩ <;>
      exact max_le (by omega) (min_le_left _ _)
  · intro s p h
    simp only [RDPDisplay.convertToRemoteCoordinates, h, if_true]

theorem claim_C9_clamping_witness :
    (0 ≤ (RDPDisplay.convertToRemoteCoordinates RDPDisplay.initialState ⟨5000, -3⟩).x ∧
     (RDPDisplay.convertToRemoteCoordinates RDPDisplay.initialState ⟨5000, -3⟩).x ≤
       RDPDisplay.initialState.remoteResolution.width - 1 ∧
     0 ≤ (RDPDisplay.convertToRemoteCoordinates RDPDisplay.initialState ⟨5000, -3⟩).y ∧
     (RDPDisplay.convertToRemoteCoordinates RDPDisplay.initialState ⟨5000, -3⟩).y ≤
       RDPDisplay.initialState.remoteResolution.height - 1) ∧
    RDPDisplay.convertToRemoteCoordinates
      { RDPDisplay.initialState with remoteResolution := ⟨0, 0⟩ } ⟨5000, -3⟩ = ⟨5000, -3⟩ :=
  ⟨claim_C9_clamping.1 RDPDisplay.initialState ⟨5000, -3⟩ (by decide),
   claim_C9_clamping.2 _ ⟨5000, -3⟩ (by decide)⟩

/-- Claim C10: while `m_inputCaptured` is false, the three `InputHandler`
event handlers emit no signal and leave the whole state — pressed buttons,
pressed keys, last pressed key, last mouse position and the repeat timer —
unchanged. -/
theorem claim_C10_frame :
    ∀ s : InputHandlerState, s.inputCaptured = false →
      (∀ e : MouseEvent, InputHandler.handleMouseEvent s e = (s, []))
      ∧ (∀ e : KeyEvent, InputHandler.handleKeyEvent s e = (s, []))
      ∧ (∀ e : WheelEvent, InputHandler.handleWheelEvent s e = (s, [])) := by
  intro s h
  refine ⟨fun e => ?_, fun e => ?_, fun e => ?_⟩
  · unfold InputHandler.handleMouseEvent
    rw [if_pos h]
  · unfold InputHandler.handleKeyEvent
    rw [if_pos h]
  · unfold InputHandler.handleWheelEvent
    rw [if_pos h]

theorem claim_C10_frame_witness :
    InputHandler.handleMouseEvent InputHandler.initialState
      ⟨⟨3, 4⟩, 1, MouseEventType.mouseButtonPress⟩ = (InputHandler.initialState, []) ∧
    InputHandler.handleKeyEvent InputHandler.initialState
      ⟨0x41, KeyEventType.keyPress, false⟩ = (InputHandler.initialState, []) ∧
    InputHandler.handleWheelEvent InputHandler.initialState ⟨240⟩ =
      (InputHandler.initialState, []) :=
  ⟨(claim_C10_frame _ rfl).1 _, (claim_C10_frame _ rfl).2.1 _, (claim_C10_frame _ rfl).2.2 _⟩

/-- Claim C2 counterexample: the claim says every binary WebSocket message is
forwarded to the GUI as an opaque payload with no decoding in the GUI — which
would make `onWebSocketBinaryMessageReceived`'s behaviour independent of the
image decoder.  In the code the handler's output depends on
`QImage::loadFromData`: a payload the decoder rejects produces no signal at
all, while one it accepts produces `bitmapReceived` with the decoded image. -/
theorem claim_C2_counterexample :
    ¬ (GoRDPBridge.onWebSocketBinaryMessageReceived GoRDPBridge.initialState
          (fun _ => none) [0]
        = GoRDPBridge.onWebSocketBinaryMessageReceived GoRDPBridge.initialState
          (fun _ => some [0]) [0]) := by
  intro h
  simp [GoRDPBridge.onWebSocketBinaryMessageReceived,
    GoRDPBridge.decodeBitmapData] at h

/-- Claim C2 (amended): the bridge does decode binary WebSocket messages
itself, with Qt's generic image loader: when `QImage::loadFromData` succeeds
the decoded image is emitted via `bitmapReceived`, and when it fails the
handler emits nothing and the raw payload is dropped — it is never forwarded
opaquely.  (RDP-specific bitmap decoding is still absent from the GUI.) -/
theorem claim_C2_binary_decode :
    ∀ (s : BridgeState) (loadFromData : List Nat → Option (List Nat)) (message : List Nat),
      (∀ image : List Nat, loadFromData message = some image →
          GoRDPBridge.onWebSocketBinaryMessageReceived s loadFromData message =
            (s, [], [BridgeSignal.bitmapReceived image]))
      ∧ (loadFromData message = none →
          GoRDPBridge.onWebSocketBinaryMessageReceived s loadFromData message =
            (s, [], [])) := by
  intro s d m
  constructor
  · intro img h
    simp only [GoRDPBridge.onWebSocketBinaryMessageReceived,
      GoRDPBridge.decodeBitmapData, h]
  · intro h
    simp only [GoRDPBridge.onWebSocketBinaryMessageReceived,
      GoRDPBridge.decodeBitmapData, h]

theorem claim_C2_binary_decode_witness :
    GoRDPBridge.onWebSocketBinaryMessageReceived GoRDPBridge.initialState
        (fun _ => some [1, 2]) [9] =
      (GoRDPBridge.initialState, [], [BridgeSignal.bitmapReceived [1, 2]]) ∧
    GoRDPBridge.onWebSocketBinaryMessageReceived GoRDPBridge.initialState
        (fun _ => none) [9] = (GoRDPBridge.initialState, [], []) :=
  ⟨(claim_C2_binary_decode GoRDPBridge.initialState (fun _ => some [1, 2]) [9]).1 [1, 2] rfl,
   (claim_C2_binary_decode GoRDPBridge.initialState (fun _ => none) [9]).2 rfl⟩

/-- Claim C3: each of `GoRDPBridge::sendMouseEvent`, `sendKeyEvent` and
`sendWheelEvent` sends a message over the WebSocket iff the WebSocket is in
the connected state; the message is a JSON object whose "type" field is
"mouse", "keyboard" or "wheel" respectively; when not connected, the call
sends nothing and changes no state (and when connected the state is likewise
unchanged). -/
theorem claim_C3_ws_send_guard :
    (∀ (s : BridgeState) (x y button : Int) (pressed : Bool),
        (s.wsState = SocketState.connectedState →
          ∃ m : Json, GoRDPBridge.sendMouseEvent s x y button pressed =
              (s, [BridgeAction.wsSendText m], [])
            ∧ m.getField "type" = Json.str "mouse")
        ∧ (s.wsState ≠ SocketState.connectedState →
            GoRDPBridge.sendMouseEvent s x y button pressed = (s, [], [])))
    ∧ (∀ (s : BridgeState) (key : Int) (pressed : Bool),
        (s.wsState = SocketState.connectedState →
          ∃ m : Json, GoRDPBridge.sendKeyEvent s key pressed =
              (s, [BridgeAction.wsSendText m], [])
            ∧ m.getField "type" = Json.str "keyboard")
        ∧ (s.wsState ≠ SocketState.connectedState →
            GoRDPBridge.sendKeyEvent s key pressed = (s, [], [])))
    ∧ (∀ (s : BridgeState) (delta : Int),
        (s.wsState = SocketState.connectedState →
          ∃ m : Json, GoRDPBridge.sendWheelEvent s delta =
              (s, [BridgeAction.wsSendText m], [])
            ∧ m.getField "type" = Json.str "wheel")
        ∧ (s.wsState ≠ SocketState.connectedState →
            GoRDPBridge.sendWheelEvent s delta = (s, [], []))) := by
  refine ⟨?_, ?_, ?_⟩
  · intro s x y button pressed
    constructor
    · intro h
      refine ⟨Json.obj [("type", Json.str "mouse"), ("x", Json.int x), ("y", Json.int y),
        ("button", Json.int button), ("pressed", Json.bool pressed)], ?_, ?_⟩
      · unfold GoRDPBridge.sendMouseEvent
        rw [if_pos h]
      · simp [Json.getField, lookupField]
    · intro h
      unfold GoRDPBridge.sendMouseEvent
      rw [if_neg h]
  · intro s key pressed
    constructor
    · intro h
      refine ⟨Json.obj [("type", Json.str "keyboard"), ("key", Json.int key),
        ("pressed", Json.bool pressed)], ?_, ?_⟩
      · unfold GoRDPBridge.sendKeyEvent
        rw [if_pos h]
      · simp [Json.getField, lookupField]
    · intro h
      unfold GoRDPBridge.sendKeyEvent
      rw [if_neg h]
  · intro s delta
    constructor
    · intro h
      refine ⟨Json.obj [("type", Json.str "wheel"), ("delta", Json.int delta)], ?_, ?_⟩
      · unfold GoRDPBridge.sendWheelEvent
        rw [if_pos h]
      · simp [Json.getField, lookupField]
    · intro h
      unfold GoRDPBridge.sendWheelEvent
      rw [if_neg h]

theorem claim_C3_ws_send_guard_witness :
    (∃ m : Json, GoRDPBridge.sendMouseEvent
        { GoRDPBridge.initialState with wsState := SocketState.connectedState } 1 2 1 true =
          ({ GoRDPBridge.initialState with wsState := SocketState.connectedState },
           [BridgeAction.wsSendText m], [])
        ∧ m.getField "type" = Json.str "mouse") ∧
    GoRDPBridge.sendKeyEvent GoRDPBridge.initialState 65 true =
      (GoRDPBridge.initialState, [], []) ∧
    (∃ m : Json, GoRDPBridge.sendWheelEvent
        { GoRDPBridge.initialState with wsState := SocketState.connectedState } 3 =
          ({ GoRDPBridge.initialState with wsState := SocketState.connectedState },
           [BridgeAction.wsSendText m], [])
        ∧ m.getField "type" = Json.str "wheel") :=
  ⟨(claim_C3_ws_send_guard.1 _ 1 2 1 true).1 rfl,
   (claim_C3_ws_send_guard.2.1 _ 65 true).2 (by decide),
   (claim_C3_ws_send_guard.2.2 _ 3).1 rfl⟩

/-- Claim C4: `GoRDPBridge::startGoRDPAPI` does nothing when the API is
already running; emits `apiError("GoRDP executable not found")` and starts
no process when the executable lookup fails; otherwise starts the
executable with arguments `--api --port <port>`, and on successful start
sets the API-running flag, opens the WebSocket to `ws://localhost:<port>/ws`
and emits `apiStarted`, while on failed start it emits
`apiError("Failed to start GoRDP API server")` and leaves the flag false. -/
theorem claim_C4_start_api :
    (∀ (s : BridgeState) (exePath : Option String) (startOk : Bool),
        s.apiRunning = true →
        GoRDPBridge.startGoRDPAPI s exePath startOk = (s, [], []))
    ∧ (∀ (s : BridgeState) (startOk : Bool), s.apiRunning = false →
        GoRDPBridge.startGoRDPAPI s none startOk =
          (s, [], [BridgeSignal.apiError "GoRDP executable not found"]))
    ∧ (∀ (s : BridgeState) (path : String), s.apiRunning = false →
        GoRDPBridge.startGoRDPAPI s (some path) true =
          ({ s with apiRunning := true },
           [BridgeAction.processStart path ["--api", "--port", toString s.apiPort],
            BridgeAction.wsOpen ("ws://localhost:" ++ toString s.apiPort ++ "/ws")],
           [BridgeSignal.apiStarted]))
    ∧ (∀ (s : BridgeState) (path : String), s.apiRunning = false →
        GoRDPBridge.startGoRDPAPI s (some path) false =
          (s, [BridgeAction.processStart path ["--api", "--port", toString s.apiPort]],
           [BridgeSignal.apiError "Failed to start GoRDP API server"])) := by
  refine ⟨?_, ?_, ?_, ?_⟩
  · intro s exePath startOk h
    unfold GoRDPBridge.startGoRDPAPI
    rw [if_pos h]
  · intro s startOk h
    unfold GoRDPBridge.startGoRDPAPI
    rw [if_neg (by simp [h])]
  · intro s path h
    unfold GoRDPBridge.startGoRDPAPI
    rw [if_neg (by simp [h])]
    simp
  · intro s path h
    unfold GoRDPBridge.startGoRDPAPI
    rw [if_neg (by simp [h])]
    simp

theorem claim_C4_start_api_witness :
    GoRDPBridge.startGoRDPAPI { GoRDPBridge.initialState with apiRunning := true }
        (some "gordp-api") true = ({ GoRDPBridge.initialState with apiRunning := true }, [], []) ∧
    GoRDPBridge.startGoRDPAPI GoRDPBridge.initialState none true =
      (GoRDPBridge.initialState, [],
       [BridgeSignal.apiError "GoRDP executable not found"]) ∧
    GoRDPBridge.startGoRDPAPI GoRDPBridge.initialState (some "gordp-api") true =
      ({ GoRDPBridge.initialState with apiRunning := true },
       [BridgeAction.processStart "gordp-api" ["--api", "--port", toString (8080 : Int)],
        BridgeAction.wsOpen ("ws://localhost:" ++ toString (8080 : Int) ++ "/ws")],
       [BridgeSignal.apiStarted]) ∧
    GoRDPBridge.startGoRDPAPI GoRDPBridge.initialState (some "gordp-api") false =
      (GoRDPBridge.initialState,
       [BridgeAction.processStart "gordp-api" ["--api", "--port", toString (8080 : Int)]],
       [BridgeSignal.apiError "Failed to start GoRDP API server"]) :=
  ⟨claim_C4_start_api.1 _ (some "gordp-api") true rfl,
   claim_C4_start_api.2.1 _ true rfl,
   claim_C4_start_api.2.2.1 GoRDPBridge.initialState "gordp-api" rfl,
   claim_C4_start_api.2.2.2 GoRDPBridge.initialState "gordp-api" rfl⟩

/-- Claim C5: on a failed HTTP reply, `GoRDPBridge::onNetworkReplyFinished`
emits exactly one `connectionError` carrying the network error string; on a
successful reply whose body is not valid JSON it emits exactly one
`connectionError("Invalid JSON response")`; in both cases it changes no
state, performs no external action — in particular no retried HTTP request —
and does not process the response further. -/
theorem claim_C5_reply_errors :
    (∀ (s : BridgeState) (err : String) (parsed : Option Json),
        GoRDPBridge.onNetworkReplyFinished s (some err) parsed =
          (s, [], [BridgeSignal.connectionError err]))
    ∧ (∀ s : BridgeState,
        GoRDPBridge.onNetworkReplyFinished s none none =
          (s, [], [BridgeSignal.connectionError "Invalid JSON response"])) :=
  ⟨fun _ _ _ => rfl, fun _ => rfl⟩

/-- Claim C6: `GoRDPBridge::connectToServer` with the API not running emits
`connectionError("GoRDP API not running")`, sends no HTTP request and
records nothing; with the API running it records server, port and username
and posts a JSON object with the `server`, `port`, `username` and `password`
fields — plus an `options` field exactly when the options object is
non-empty — to the `/api/connect` endpoint. -/
theorem claim_C6_connect :
    (∀ (s : BridgeState) (server : String) (port : Int)
        (username password : String) (options : List (String × Json)),
        s.apiRunning = false →
        GoRDPBridge.connectToServer s server port username password options =
          (s, [], [BridgeSignal.connectionError "GoRDP API not running"]))
    ∧ (∀ (s : BridgeState) (server : String) (port : Int) (username password : String),
        s.apiRunning = true →
        GoRDPBridge.connectToServer s server port username password [] =
          ({ s with currentServer := server, currentPort := port,
                    currentUsername := username },
           [BridgeAction.httpPost (s.apiUrl ++ "/api/connect")
              (Json.obj [("server", Json.str server), ("port", Json.int port),
                         ("username", Json.str username),
                         ("password", Json.str password)])],
           []))
    ∧ (∀ (s : BridgeState) (server : String) (port : Int)
        (username password : String) (options : List (String × Json)),
        s.apiRunning = true → options.isEmpty = false →
        GoRDPBridge.connectToServer s server port username password options =
          ({ s with currentServer := server, currentPort := port,
                    currentUsername := username },
           [BridgeAction.httpPost (s.apiUrl ++ "/api/connect")
              (Json.obj [("server", Json.str server), ("port", Json.int port),
                         ("username", Json.str username),
                         ("password", Json.str password),
                         ("options", Json.obj options)])],
           [])) := by
  refine ⟨?_, ?_, ?_⟩
  · intro s server port username password options h
    unfold GoRDPBridge.connectToServer
    rw [if_pos h]
  · intro s server port username password h
    unfold GoRDPBridge.connectToServer
    rw [if_neg (by simp [h])]
    simp [GoRDPBridge.sendHttpRequest]
  · intro s server port username password options h hopts
    unfold GoRDPBridge.connectToServer
    rw [if_neg (by simp [h])]
    simp [GoRDPBridge.sendHttpRequest, hopts]

theorem claim_C6_connect_witness :
    GoRDPBridge.connectToServer GoRDPBridge.initialState "host" 3389 "u" "p" [] =
      (GoRDPBridge.initialState, [],
       [BridgeSignal.connectionError "GoRDP API not running"]) ∧
    GoRDPBridge.connectToServer { GoRDPBridge.initialState with apiRunning := true }
        "host" 3389 "u" "p" [] =
      ({ GoRDPBridge.initialState with
          apiRunning := true, currentServer := "host",
          currentPort := 3389, currentUsername := "u" },
       [BridgeAction.httpPost (GoRDPBridge.initialState.apiUrl ++ "/api/connect")
          (Json.obj [("server", Json.str "host"), ("port", Json.int 3389),
                     ("username", Json.str "u"), ("password", Json.str "p")])],
       []) ∧
    GoRDPBridge.connectToServer { GoRDPBridge.initialState with apiRunning := true }
        "host" 3389 "u" "p" [("fullscreen", Json.bool true)] =
      ({ GoRDPBridge.initialState with
          apiRunning := true, currentServer := "host",
          currentPort := 3389, currentUsername := "u" },
       [BridgeAction.httpPost (GoRDPBridge.initialState.apiUrl ++ "/api/connect")
          (Json.obj [("server", Json.str "host"), ("port", Json.int 3389),
                     ("username", Json.str "u"), ("password", Json.str "p"),
                     ("options", Json.obj [("fullscreen", Json.bool true)])])],
       []) :=
  ⟨claim_C6_connect.1 _ "host" 3389 "u" "p" [] rfl,
   claim_C6_connect.2.1 _ "host" 3389 "u" "p" rfl,
   claim_C6_connect.2.2 _ "host" 3389 "u" "p" [("fullscreen", Json.bool true)] rfl rfl⟩

/-- Claim C8: `GoRDPBridge::stopGoRDPAPI` terminates the engine process
whenever it is running (and kills it when it has not finished within
5000 ms), closes the WebSocket, sets both the API-running and connected
flags to false, and emits `apiStopped`; these postconditions hold regardless
of the prior state. -/
theorem claim_C8_stop_api :
    ∀ (s : BridgeState) (finishedWithin5000 : Bool),
      (GoRDPBridge.stopGoRDPAPI s finishedWithin5000).1.apiRunning = false
      ∧ (GoRDPBridge.stopGoRDPAPI s finishedWithin5000).1.isConnected = false
      ∧ (GoRDPBridge.stopGoRDPAPI s finishedWithin5000).2.2 = [BridgeSignal.apiStopped]
      ∧ BridgeAction.wsClose ∈ (GoRDPBridge.stopGoRDPAPI s finishedWithin5000).2.1
      ∧ (s.processState ≠ ProcState.notRunning →
          BridgeAction.processTerminate ∈
            (GoRDPBridge.stopGoRDPAPI s finishedWithin5000).2.1)
      ∧ (s.processState ≠ ProcState.notRunning → finishedWithin5000 = false →
          BridgeAction.processKill ∈ (GoRDPBridge.stopGoRDPAPI s finishedWithin5000).2.1)
      ∧ (s.processState = ProcState.notRunning →
          (GoRDPBridge.stopGoRDPAPI s finishedWithin5000).2.1 = [BridgeAction.wsClose]) := by
  intro s f
  refine ⟨rfl, rfl, rfl, ?_, ?_, ?_, ?_⟩
  · by_cases hp : s.processState = ProcState.notRunning <;>
      cases f <;> simp [GoRDPBridge.stopGoRDPAPI, hp]
  · intro hp
    cases f <;> simp [GoRDPBridge.stopGoRDPAPI, hp]
  · intro hp hf
    subst hf
    simp [GoRDPBridge.stopGoRDPAPI, hp]
  · intro hp
    cases f <;> simp [GoRDPBridge.stopGoRDPAPI, hp]

theorem claim_C8_stop_api_witness :
    (GoRDPBridge.stopGoRDPAPI
        { GoRDPBridge.initialState with
          processState := ProcState.running,
          apiRunning := true, isConnected := true } false).1.apiRunning = false ∧
    (GoRDPBridge.stopGoRDPAPI
        { GoRDPBridge.initialState with
          processState := ProcState.running,
          apiRunning := true, isConnected := true } false).1.isConnected = false ∧
    (GoRDPBridge.stopGoRDPAPI
        { GoRDPBridge.initialState with
          processState := ProcState.running,
          apiRunning := true, isConnected := true } false).2.2 =
      [BridgeSignal.apiStopped] ∧
    BridgeAction.wsClose ∈ (GoRDPBridge.stopGoRDPAPI
        { GoRDPBridge.initialState with
          processState := ProcState.running,
          apiRunning := true, isConnected := true } false).2.1 ∧
    BridgeAction.processTerminate ∈ (GoRDPBridge.stopGoRDPAPI
        { GoRDPBridge.initialState with
          processState := ProcState.running,
          apiRunning := true, isConnected := true } false).2.1 ∧
    BridgeAction.processKill ∈ (GoRDPBridge.stopGoRDPAPI
        { GoRDPBridge.initialState with
          processState := ProcState.running,
          apiRunning := true, isConnected := true } false).2.1 :=
  ⟨(claim_C8_stop_api _ false).1,
   (claim_C8_stop_api _ false).2.1,
   (claim_C8_stop_api _ false).2.2.1,
   (claim_C8_stop_api _ false).2.2.2.1,
   (claim_C8_stop_api _ false).2.2.2.2.1 (by decide),
   (claim_C8_stop_api _ false).2.2.2.2.2.1 (by decide) rfl⟩
